import Mathlib

/-!
Verification development for `generate_app_icon.py`.

The script builds a 1024x1024 RGB icon: a vertical gradient background
(`create_gradient`), a camera-lens disc and ring, four viewfinder corner
brackets, and writes the result as a PNG.  We embed the pixel-level
semantics of the script (including the Pillow library operations it calls:
the masked `paste` blend from `Paste.c`, ink resolution for RGB images, and
the wide-line rasterization used for the brackets) and prove or refute the
specified properties.

Machine arithmetic notes: Python float division `y / height` followed by
`int(...)` is modelled as exact rational truncation `255 * y / height`
(Nat floor division); this is exact for the power-of-two height used by the
script.  Pillow stores 8-bit channels; colors are triples of `Nat` with a
validity predicate bounding channels by 255.
-/

namespace AppIcon

/-- An 8-bit RGB color, as stored in a Pillow RGB-mode image. -/
structure Color where
  r : Nat
  g : Nat
  b : Nat
deriving DecidableEq

/-- All three channels fit in 8 bits. -/
def Color.valid (c : Color) : Prop :=
  c.r ≤ 255 ∧ c.g ≤ 255 ∧ c.b ≤ 255

instance (c : Color) : Decidable c.valid := by
  unfold Color.valid; infer_instance

/-- Pillow macro `MULDIV255` from `Paste.c`:
`tmp = a * b + 128; (((tmp) >> 8) + (tmp)) >> 8`.
It computes the nearest integer to `a * b / 255` for in-range inputs. -/
def muldiv255 (a b : Nat) : Nat :=
  ((a * b + 128) >>> 8 + (a * b + 128)) >>> 8

/-- Pillow macro `BLEND` from `Paste.c`, used by `Image.paste` with an
`L`-mode mask: the channels of the base and the pasted image are combined
with weights `255 - mask` and `mask`, each term rounded separately. -/
def blendChannel (ch1 ch2 m : Nat) : Nat :=
  muldiv255 ch1 (255 - m) + muldiv255 ch2 m

/-- Channel-wise masked blend of two colors (Pillow `paste` with mask). -/
def blendColor (c1 c2 : Color) (m : Nat) : Color :=
  ⟨blendChannel c1.r c2.r m, blendChannel c1.g c2.g m, blendChannel c1.b c2.b m⟩

/-- The mask value `int(255 * (y / height))` computed in the loop body of
`create_gradient`.  Python raises `ZeroDivisionError` when `height = 0`,
modelled by `none`; otherwise the value is the floor of `255 * y / height`. -/
def maskValue (y height : Nat) : Option Nat :=
  if height = 0 then none else some (255 * y / height)

/-- The loop
`for y in range(height): mask_data.extend([int(255 * (y / height))] * width)`
unrolled from iteration 0 up to iteration `n - 1`. -/
def maskDataAux (width height : Nat) : Nat → Option (List Nat)
  | 0 => some []
  | n + 1 => do
      let rest ← maskDataAux width height n
      let v ← maskValue n height
      return rest ++ List.replicate width v

/-- The full `mask_data` list built by the loop in `create_gradient`. -/
def mask_data (width height : Nat) : Option (List Nat) :=
  maskDataAux width height height

/-- `create_gradient(width, height, color1, color2)`: a base image filled
with `color1`, a top image filled with `color2`, and an `L`-mode mask whose
row `y` is `int(255 * (y / height))`, pasted together.  The image is the
row-major pixel list; `none` models an uncaught `ZeroDivisionError`. -/
def create_gradient (width height : Nat) (color1 color2 : Color) :
    Option (List Color) := do
  let base := List.replicate (width * height) color1
  let top := List.replicate (width * height) color2
  let mask ← mask_data width height
  return List.zipWith (fun p m => blendColor p.1 p.2 m) (base.zip top) mask

/-- Closed form for the pixel list produced by `create_gradient`. -/
def gradientPixels (width height : Nat) (c1 c2 : Color) : List Color :=
  (List.range height).flatMap fun y =>
    List.replicate width (blendColor c1 c2 (255 * y / height))

lemma maskDataAux_eq (width height : Nat) :
    ∀ n, n ≤ height →
      maskDataAux width height n =
        some ((List.range n).flatMap fun y => List.replicate width (255 * y / height)) := by
  intro n
  induction n with
  | zero => intro _; rfl
  | succ k ih =>
      intro hk
      have hh : height ≠ 0 := by omega
      rw [maskDataAux, ih (by omega)]
      simp [maskValue, hh, List.range_succ]

lemma mask_data_eq (width height : Nat) :
    mask_data width height =
      some ((List.range height).flatMap fun y => List.replicate width (255 * y / height)) :=
  maskDataAux_eq width height height le_rfl

lemma length_flatMap_replicate {α β : Type} (w : Nat) (g : α → β) :
    ∀ l : List α, (l.flatMap fun a => List.replicate w (g a)).length = l.length * w := by
  intro l
  induction l with
  | nil => simp
  | cons a t ih => simp [List.flatMap_cons, ih]; ring

lemma zipWith_zip_replicate {α β : Type} (f : α × α → β → α) (c d : α) :
    ∀ (l : List β) (n : Nat), l.length ≤ n →
      List.zipWith f ((List.replicate n c).zip (List.replicate n d)) l =
        l.map fun m => f (c, d) m := by
  intro l
  induction l with
  | nil => intro n _; simp
  | cons m t ih =>
      intro n hn
      match n with
      | nk + 1 =>
          simp only [List.replicate, List.zip_cons_cons, List.zipWith, List.map]
          exact congrArg _ (ih nk (by simpa using hn))

lemma create_gradient_eq (width height : Nat) (c1 c2 : Color) :
    create_gradient width height c1 c2 = some (gradientPixels width height c1 c2) := by
  rw [create_gradient, mask_data_eq]
  show some _ = _
  congr 1
  have hlen :
      ((List.range height).flatMap fun y =>
        List.replicate width (255 * y / height)).length ≤ width * height := by
    rw [length_flatMap_replicate, List.length_range, Nat.mul_comm]
  rw [zipWith_zip_replicate _ _ _ _ _ hlen]
  unfold gradientPixels
  rw [List.map_flatMap]
  simp [List.map_replicate]

lemma getElem?_flatMap_replicate {α β : Type} (w : Nat) (g : α → β) :
    ∀ (l : List α) (x y : Nat), x < w →
      (l.flatMap fun a => List.replicate w (g a))[y * w + x]? = Option.map g l[y]? := by
  intro l
  induction l with
  | nil => intro x y _; simp
  | cons a t ih =>
      intro x y hx
      match y with
      | 0 =>
          simp only [List.flatMap_cons, Nat.zero_mul, Nat.zero_add]
          rw [List.getElem?_append_left (by simpa using hx)]
          simp [hx]
      | yk + 1 =>
          simp only [List.flatMap_cons]
          rw [List.getElem?_append_right (by simp; nlinarith)]
          have harith : (yk + 1) * w + x - w = yk * w + x := by
            have : (yk + 1) * w = yk * w + w := by ring
            omega
          simp only [List.length_replicate, harith]
          rw [ih x yk hx]
          simp

/-- The pixel of the gradient at column `x`, row `y` (row-major index
`y * width + x`) is the masked blend of the two colors with mask value
`255 * y / height`, independently of `x`. -/
lemma create_gradient_pixel (width height : Nat) (c1 c2 : Color) (x y : Nat)
    (hx : x < width) (hy : y < height) :
    (create_gradient width height c1 c2).bind (fun img => img[y * width + x]?) =
      some (blendColor c1 c2 (255 * y / height)) := by
  rw [create_gradient_eq]
  show (gradientPixels width height c1 c2)[y * width + x]? = _
  unfold gradientPixels
  rw [getElem?_flatMap_replicate _ _ _ _ _ hx, List.getElem?_range hy]
  rfl

lemma muldiv255_eq (a b : Nat) (h : a * b ≤ 65025) :
    muldiv255 a b = (a * b + 127) / 255 := by
  unfold muldiv255
  simp only [Nat.shiftRight_eq_div_pow]
  omega

lemma blendChannel_eq (a b m : Nat) (ha : a ≤ 255) (hb : b ≤ 255) (hm : m ≤ 255) :
    blendChannel a b m = (a * (255 - m) + 127) / 255 + (b * m + 127) / 255 := by
  unfold blendChannel
  rw [muldiv255_eq a (255 - m)
      (Nat.le_trans (Nat.mul_le_mul ha (Nat.sub_le 255 m)) (by norm_num)),
    muldiv255_eq b m (Nat.le_trans (Nat.mul_le_mul hb hm) (by norm_num))]

/-- With mask value 0 the blend returns the first color exactly. -/
lemma blendChannel_zero (a b : Nat) (ha : a ≤ 255) (hb : b ≤ 255) :
    blendChannel a b 0 = a := by
  rw [blendChannel_eq a b 0 ha hb (by omega)]
  omega

/-- With mask value 254 the blend lands within one unit of the second color. -/
lemma blendChannel_almost_top (a b : Nat) (ha : a ≤ 255) (hb : b ≤ 255) :
    blendChannel a b 254 ≤ b + 1 ∧ b ≤ blendChannel a b 254 + 1 := by
  rw [blendChannel_eq a b 254 ha hb (by omega)]
  omega

/-- The blend moves with the mask monotonically up to a one-unit rounding
wobble: raising the mask can lower a channel with `a ≤ b` by at most 1. -/
lemma blendChannel_mono_of_le (a b m1 m2 : Nat) (ha : a ≤ 255) (hb : b ≤ 255)
    (hab : a ≤ b) (hm12 : m1 ≤ m2) (hm2 : m2 ≤ 255) :
    blendChannel a b m1 ≤ blendChannel a b m2 + 1 := by
  rw [blendChannel_eq a b m1 ha hb (by omega), blendChannel_eq a b m2 ha hb hm2]
  have h1 : a * (255 - m1) = a * (255 - m2) + a * (m2 - m1) := by
    rw [← Nat.mul_add]
    congr 1
    omega
  have h2 : b * m2 = b * m1 + b * (m2 - m1) := by
    rw [← Nat.mul_add]
    congr 1
    omega
  have h3 : a * (m2 - m1) ≤ b * (m2 - m1) := Nat.mul_le_mul_right _ hab
  omega

/-- The symmetric bound for a channel that descends: raising the mask can
raise a channel with `b ≤ a` by at most 1. -/
lemma blendChannel_anti_of_ge (a b m1 m2 : Nat) (ha : a ≤ 255) (hb : b ≤ 255)
    (hab : b ≤ a) (hm12 : m1 ≤ m2) (hm2 : m2 ≤ 255) :
    blendChannel a b m2 ≤ blendChannel a b m1 + 1 := by
  rw [blendChannel_eq a b m1 ha hb (by omega), blendChannel_eq a b m2 ha hb hm2]
  have h1 : a * (255 - m1) = a * (255 - m2) + a * (m2 - m1) := by
    rw [← Nat.mul_add]
    congr 1
    omega
  have h2 : b * m2 = b * m1 + b * (m2 - m1) := by
    rw [← Nat.mul_add]
    congr 1
    omega
  have h3 : b * (m2 - m1) ≤ a * (m2 - m1) := Nat.mul_le_mul_right _ hab
  omega

/-- The mask value of the last row is exactly 254 whenever `height ≥ 255`. -/
lemma mask_last_row (height : Nat) (h : 255 ≤ height) :
    255 * (height - 1) / height = 254 := by
  have key : 255 * (height - 1) = (height - 255) + height * 254 := by omega
  rw [key, Nat.add_mul_div_left _ _ (by omega : 0 < height),
    Nat.div_eq_of_lt (by omega)]

/-- Two channel values agree within plus or minus one. -/
def chanNear (a b : Nat) : Prop := a ≤ b + 1 ∧ b ≤ a + 1

/-- Two colors agree within plus or minus one per 8-bit channel. -/
def withinOne (c d : Color) : Prop :=
  chanNear c.r d.r ∧ chanNear c.g d.g ∧ chanNear c.b d.b

instance (a b : Nat) : Decidable (chanNear a b) := by
  unfold chanNear; infer_instance

instance (c d : Color) : Decidable (withinOne c d) := by
  unfold withinOne; infer_instance

/-- Modelled from the spec: for row `y` of a canvas of height `h`, blend
each channel as `channel = start + t * (end - start)` with `t = y / h`,
rounded to the nearest integer in `[0, 255]`.  As an exact rational the
channel is `(s * h + y * (e - s)) / h`; rounding half up gives
`(2 * (s * h + y * (e - s)) + h) / (2 * h)` under floor division. -/
def specGradientChannel (s e y h : Nat) : Int :=
  let p : Int := (s : Int) * (h : Int) + (y : Int) * ((e : Int) - (s : Int))
  min 255 (max 0 (Int.ediv (2 * p + (h : Int)) (2 * (h : Int))))

/-- Modelled from the spec: the reference interpolated color of row `y`. -/
def specGradientColor (c1 c2 : Color) (y h : Nat) : Int × Int × Int :=
  (specGradientChannel c1.r c2.r y h, specGradientChannel c1.g c2.g y h,
    specGradientChannel c1.b c2.b y h)

/-! ## The drawing phase of `create_app_icon` -/

/-- An in-memory Pillow image: mode string, dimensions, row-major pixels. -/
structure PyImage where
  mode : String
  width : Nat
  height : Nat
  data : List Color
deriving DecidableEq

/-- A drawing color argument as passed to an `ImageDraw` call. -/
inductive Ink where
  | rgb (r g b : Nat)
  | rgba (r g b a : Nat)
deriving DecidableEq

/-- Pillow ink resolution for an RGB-mode image: RGB pixels are stored as
four bytes RGBX with the fourth byte unused, so a 4-tuple ink is accepted
and its alpha byte is dropped when painting. -/
def inkToColor : Ink → Color
  | .rgb r g b => ⟨r, g, b⟩
  | .rgba r g b _ => ⟨r, g, b⟩

/-- Overwrite with `ink` every pixel whose coordinates satisfy `inside`;
`i` is the row-major index of the head of the list, `w` the row width. -/
def paintData (w : Nat) (inside : Nat → Nat → Bool) (ink : Color) :
    Nat → List Color → List Color
  | _, [] => []
  | i, c :: rest =>
      (if inside (i % w) (i / w) then ink else c) :: paintData w inside ink (i + 1) rest

/-- A drawing call: paint the region `inside` with `ink`, in place. -/
def paintIf (inside : Nat → Nat → Bool) (ink : Ink) (img : PyImage) : PyImage :=
  { img with data := paintData img.width inside (inkToColor ink) 0 img.data }

lemma length_paintData (w : Nat) (inside : Nat → Nat → Bool) (ink : Color) :
    ∀ (i : Nat) (l : List Color), (paintData w inside ink i l).length = l.length := by
  intro i l
  induction l generalizing i with
  | nil => rfl
  | cons c rest ih => simp [paintData, ih]

lemma getElem?_paintData (w : Nat) (inside : Nat → Nat → Bool) (ink : Color) :
    ∀ (l : List Color) (i j : Nat),
      (paintData w inside ink i l)[j]? =
        Option.map (fun c => if inside ((i + j) % w) ((i + j) / w) then ink else c)
          l[j]? := by
  intro l
  induction l with
  | nil => intro i j; simp [paintData]
  | cons c rest ih =>
      intro i j
      match j with
      | 0 => simp [paintData]
      | jk + 1 =>
          simp only [paintData, List.getElem?_cons_succ]
          rw [ih (i + 1) jk]
          have harith : i + 1 + jk = i + (jk + 1) := by omega
          rw [harith]

/-! Constants of `create_app_icon`, written as in the source (`//` is floor
division).  Geometry is carried out over `Int` coordinates. -/

def size : Nat := 1024

def color1 : Color := ⟨0, 122, 255⟩

def color2 : Color := ⟨88, 86, 214⟩

def center : Int := (size : Int) / 2

def circle_radius : Int := (size : Int) / 3

def inner_radius : Int := circle_radius / 2

def corner_size : Int := 60

def corner_width : Int := 15

def corner_offset : Int := circle_radius + 80

def output_path : String :=
  "FaceRecognitionClient/Assets.xcassets/AppIcon.appiconset/AppIcon.png"

def sq (z : Int) : Int := z * z

/-- Squared distance between pixel `(x, y)` and point `(cx, cy)`. -/
def dist2 (cx cy x y : Int) : Int := sq (x - cx) + sq (y - cy)

/-- Models the interior painted by a filled `draw.ellipse` on a circular
bounding box centered at `(cx, cy)` with radius `r`. -/
def inDisc (cx cy r : Int) (x y : Nat) : Bool :=
  dist2 cx cy (x : Int) (y : Int) ≤ sq r

/-- Models the annulus stroked by an ellipse outline: pixels farther than
`rIn` but within `rOut` of the center. -/
def onCircleBand (cx cy rIn rOut : Int) (x y : Nat) : Bool :=
  sq rIn < dist2 cx cy (x : Int) (y : Int) ∧ dist2 cx cy (x : Int) (y : Int) ≤ sq rOut

/-- The first `draw.ellipse` call: the outer lens disc, filled with the
RGBA ink `(255, 255, 255, 230)` and outlined in `(240, 240, 240)` (Pillow
paints the fill first, then the one-pixel outline on the boundary). -/
def drawOuterCircle (img : PyImage) : PyImage :=
  paintIf (onCircleBand center center (circle_radius - 1) circle_radius)
    (Ink.rgb 240 240 240)
    (paintIf (inDisc center center circle_radius) (Ink.rgba 255 255 255 230) img)

/-- The second `draw.ellipse` call: the unfilled aperture ring, stroked
inward with width 20 in the accent color `(0, 122, 255)`. -/
def drawInnerCircle (img : PyImage) : PyImage :=
  paintIf (onCircleBand center center (inner_radius - 20) inner_radius)
    (Ink.rgb 0 122 255) img

/-- Pillow thickens a wide line by `(width - 1) / 2` pixels on each side of
the segment (for the odd width 15 used here: 7 on each side). -/
def halfWidth (w : Int) : Int := (w - 1) / 2

/-- Models Pillow `ImagingDrawWideLine` plus polygon fill for a horizontal
segment from `(x0, yc)` to `(x1, yc)` of odd width `w`: the closed
axis-aligned rectangle spanning the endpoints, thickened `halfWidth w`
above and below. -/
def hLineSet (x0 x1 yc w x y : Int) : Prop :=
  ((x0 ≤ x ∧ x ≤ x1) ∨ (x1 ≤ x ∧ x ≤ x0)) ∧
    yc - halfWidth w ≤ y ∧ y ≤ yc + halfWidth w

/-- The analogous painted set of a vertical wide segment. -/
def vLineSet (xc y0 y1 w x y : Int) : Prop :=
  (xc - halfWidth w ≤ x ∧ x ≤ xc + halfWidth w) ∧
    ((y0 ≤ y ∧ y ≤ y1) ∨ (y1 ≤ y ∧ y ≤ y0))

instance (x0 x1 yc w x y : Int) : Decidable (hLineSet x0 x1 yc w x y) := by
  unfold hLineSet; infer_instance

instance (xc y0 y1 w x y : Int) : Decidable (vLineSet xc y0 y1 w x y) := by
  unfold vLineSet; infer_instance

/-- Pixels painted by the two `draw.line` calls of the top-left corner. -/
def topLeftBracket (x y : Int) : Prop :=
  hLineSet (center - corner_offset) (center - corner_offset + corner_size)
    (center - corner_offset) corner_width x y ∨
  vLineSet (center - corner_offset) (center - corner_offset)
    (center - corner_offset + corner_size) corner_width x y

/-- Pixels painted by the two `draw.line` calls of the top-right corner. -/
def topRightBracket (x y : Int) : Prop :=
  hLineSet (center + corner_offset) (center + corner_offset - corner_size)
    (center - corner_offset) corner_width x y ∨
  vLineSet (center + corner_offset) (center - corner_offset)
    (center - corner_offset + corner_size) corner_width x y

/-- Pixels painted by the two `draw.line` calls of the bottom-left corner. -/
def bottomLeftBracket (x y : Int) : Prop :=
  hLineSet (center - corner_offset) (center - corner_offset + corner_size)
    (center + corner_offset) corner_width x y ∨
  vLineSet (center - corner_offset) (center + corner_offset)
    (center + corner_offset - corner_size) corner_width x y

/-- Pixels painted by the two `draw.line` calls of the bottom-right corner. -/
def bottomRightBracket (x y : Int) : Prop :=
  hLineSet (center + corner_offset) (center + corner_offset - corner_size)
    (center + corner_offset) corner_width x y ∨
  vLineSet (center + corner_offset) (center + corner_offset)
    (center + corner_offset - corner_size) corner_width x y

instance (x y : Int) : Decidable (topLeftBracket x y) := by
  unfold topLeftBracket; infer_instance

instance (x y : Int) : Decidable (topRightBracket x y) := by
  unfold topRightBracket; infer_instance

instance (x y : Int) : Decidable (bottomLeftBracket x y) := by
  unfold bottomLeftBracket; infer_instance

instance (x y : Int) : Decidable (bottomRightBracket x y) := by
  unfold bottomRightBracket; infer_instance

/-- The eight `draw.line` calls adding the viewfinder corners, all with the
same white ink. -/
def drawCorners (img : PyImage) : PyImage :=
  paintIf
    (fun x y =>
      decide (topLeftBracket (x : Int) (y : Int) ∨ topRightBracket (x : Int) (y : Int) ∨
        bottomLeftBracket (x : Int) (y : Int) ∨ bottomRightBracket (x : Int) (y : Int)))
    (Ink.rgb 255 255 255) img

/-- Ambient process state a run could in principle observe: wall-clock time
and a random seed.  The script consults neither. -/
structure Env where
  time : Nat
  randomSeed : Nat
deriving DecidableEq

/-- `create_app_icon()`: gradient background, lens circles, viewfinder
corners, in source order.  The final `img.save` call serializes the canvas
to `output_path` without modifying pixels, so the function is modelled as
returning the final canvas; `none` would signal an uncaught
`ZeroDivisionError` inside `create_gradient`. -/
def create_app_icon (_env : Env) : Option PyImage :=
  (create_gradient size size color1 color2).map fun data =>
    drawCorners (drawInnerCircle (drawOuterCircle ⟨"RGB", size, size, data⟩))

/-! ## Top-level script execution -/

/-- A Python exception from the `Exception` hierarchy, as far as the
handlers of the script distinguish them. -/
inductive PyExc where
  | importError (msg : String)
  | otherError (msg : String)
deriving DecidableEq

/-- How a run of the script terminates: a normal exit that printed the
given lines, or a crash with an uncaught exception. -/
inductive Outcome where
  | normalExit (lines : List String)
  | uncaught (e : PyExc)
deriving DecidableEq

/-- Conditions of one run: whether the PIL package is importable, and
which exception, if any, the body of `create_app_icon` raises at runtime
(for example a failing `img.save` on an unwritable output path). -/
structure RunCond where
  pilAvailable : Bool
  bodyExc : Option PyExc
deriving DecidableEq

/-- The instructional message of the `except ImportError` branch. -/
def installLines : List String :=
  ["❌ Error: PIL (Pillow) not installed", "To install, run:",
    "  pip3 install Pillow", "Or if using conda:", "  conda install pillow"]

/-- The messages printed on a successful run. -/
def successLines : List String :=
  ["✅ App icon created successfully!", "   Size: 1024x1024",
    "   Location: " ++ output_path]

/-- The diagnostic of the `except Exception` branch: the exception text
followed by the trace printed by the traceback module. -/
def genericErrorLines (msg : String) : List String :=
  ["❌ Error creating icon: " ++ msg, "Traceback (most recent call last):"]

/-- One run of the script.  The module-level `from PIL import ...` on
line 7 executes before the `__main__` block, so a missing PIL raises there,
outside any handler.  Only exceptions raised by the `create_app_icon()`
call inside the try block reach the `except ImportError` /
`except Exception` handlers. -/
def runScript (c : RunCond) : Outcome :=
  if c.pilAvailable = false then
    Outcome.uncaught (PyExc.importError "No module named PIL")
  else
    match c.bodyExc with
    | none => Outcome.normalExit successLines
    | some (PyExc.importError _) => Outcome.normalExit installLines
    | some (PyExc.otherError msg) => Outcome.normalExit (genericErrorLines msg)

/-! ## Claim theorems -/

/-- C1 (code bug): with PIL missing, the module-level `from PIL import ...`
on line 7 raises before the `__main__` try/except is ever entered, so the
run ends with an uncaught ImportError and the instructional install message
of the `except ImportError` branch is never printed. -/
theorem C1_missing_pil_uncaught :
    runScript ⟨false, none⟩ =
      Outcome.uncaught (PyExc.importError "No module named PIL") ∧
    ∀ lines, runScript ⟨false, none⟩ ≠ Outcome.normalExit lines := by
  refine ⟨rfl, ?_⟩
  intro lines h
  exact Outcome.noConfusion h

/-- C2 (amended): for every valid start and end color and height > 0, row 0
of `create_gradient` equals the start color exactly; row height − 1 is
within plus or minus one per channel of the end color provided
height ≥ 255 (in particular for the 1024-row canvas of the script); for
smaller heights the last row can be farther from the end color. -/
theorem C2_gradient_endpoints (width height : Nat) (c1 c2 : Color) (x : Nat)
    (hv1 : c1.valid) (hv2 : c2.valid) (hx : x < width) (hh : 0 < height) :
    (create_gradient width height c1 c2).bind (fun img => img[x]?) = some c1 ∧
    (255 ≤ height →
      ∃ p, (create_gradient width height c1 c2).bind
          (fun img => img[(height - 1) * width + x]?) = some p ∧ withinOne p c2) := by
  obtain ⟨h1r, h1g, h1b⟩ := hv1
  obtain ⟨h2r, h2g, h2b⟩ := hv2
  constructor
  · have h0 := create_gradient_pixel width height c1 c2 x 0 hx hh
    simp only [Nat.zero_mul, Nat.zero_add, Nat.mul_zero, Nat.zero_div] at h0
    rw [h0]
    congr 1
    cases c1
    cases c2
    simp only [blendColor, Color.mk.injEq]
    exact ⟨blendChannel_zero _ _ h1r h2r, blendChannel_zero _ _ h1g h2g,
      blendChannel_zero _ _ h1b h2b⟩
  · intro h255
    refine ⟨blendColor c1 c2 254, ?_, ?_⟩
    · have hl := create_gradient_pixel width height c1 c2 x (height - 1) hx (by omega)
      rw [mask_last_row height h255] at hl
      exact hl
    · exact ⟨blendChannel_almost_top _ _ h1r h2r, blendChannel_almost_top _ _ h1g h2g,
        blendChannel_almost_top _ _ h1b h2b⟩

/-- Witness for C2 at width 1, height 255 and the colors of the script. -/
theorem C2_gradient_endpoints_witness :
    color1.valid ∧ color2.valid ∧ 0 < 1 ∧ 0 < 255 ∧
      ((create_gradient 1 255 color1 color2).bind (fun img => img[0]?) = some color1 ∧
        (255 ≤ 255 →
          ∃ p, (create_gradient 1 255 color1 color2).bind
              (fun img => img[(255 - 1) * 1 + 0]?) = some p ∧ withinOne p color2)) :=
  ⟨by decide, by decide, by decide, by decide,
    C2_gradient_endpoints 1 255 color1 color2 0 (by decide) (by decide) (by decide)
      (by decide)⟩

/-- C2 counterexample: at height 2 from black to white the single last row
is (127, 127, 127), not within one unit of (255, 255, 255). -/
theorem C2_counterexample :
    (create_gradient 1 2 ⟨0, 0, 0⟩ ⟨255, 255, 255⟩).bind
        (fun img => img[(2 - 1) * 1 + 0]?) = some ⟨127, 127, 127⟩ ∧
    ¬ withinOne ⟨127, 127, 127⟩ ⟨255, 255, 255⟩ := by
  refine ⟨by decide, by decide⟩

/-- C3 (amended): each row of the gradient is constant across its columns,
and its color is the Pillow mask blend of the two colors with the quantized
interpolation factor `255 * y / height` of `mask_data` — two separately
rounded `MULDIV255` terms, not the single nearest-integer interpolation
formula of the reference algorithm. -/
theorem C3_row_formula (width height : Nat) (c1 c2 : Color) (x y : Nat)
    (hx : x < width) (hy : y < height) :
    (create_gradient width height c1 c2).bind (fun img => img[y * width + x]?) =
      some (blendColor c1 c2 (255 * y / height)) :=
  create_gradient_pixel width height c1 c2 x y hx hy

/-- Witness for C3 at width 2, height 3 and the colors of the script. -/
theorem C3_row_formula_witness :
    1 < 2 ∧ 2 < 3 ∧
      (create_gradient 2 3 color1 color2).bind (fun img => img[2 * 2 + 1]?) =
        some (blendColor color1 color2 (255 * 2 / 3)) :=
  ⟨by decide, by decide, C3_row_formula 2 3 color1 color2 1 2 (by decide) (by decide)⟩

/-- C3 counterexample: at height 4, row 1, from black to white, the code
produces channel 63 while the reference interpolation formula of the spec
rounds 255 / 4 = 63.75 to 64. -/
theorem C3_counterexample :
    (create_gradient 1 4 ⟨0, 0, 0⟩ ⟨255, 255, 255⟩).bind
        (fun img => img[1 * 1 + 0]?) = some ⟨63, 63, 63⟩ ∧
    specGradientChannel 0 255 1 4 = 64 ∧
    ((63 : Nat) : Int) ≠ specGradientChannel 0 255 1 4 := by
  refine ⟨by decide, by decide, by decide⟩

/-- C4 (amended): per channel the gradient is monotone up to a one-unit
rounding wobble: with start ≤ end a later row is at least the earlier row
minus 1, and with start ≥ end at most the earlier row plus 1; strict
monotonicity fails (see the counterexample). -/
theorem C4_monotone_within_one (width height : Nat) (c1 c2 : Color)
    (x y1 y2 : Nat) (p1 p2 : Color) (hv1 : c1.valid) (hv2 : c2.valid)
    (hx : x < width) (h12 : y1 ≤ y2) (h2 : y2 < height)
    (hp1 : (create_gradient width height c1 c2).bind
        (fun img => img[y1 * width + x]?) = some p1)
    (hp2 : (create_gradient width height c1 c2).bind
        (fun img => img[y2 * width + x]?) = some p2) :
    (c1.r ≤ c2.r → p1.r ≤ p2.r + 1) ∧ (c2.r ≤ c1.r → p2.r ≤ p1.r + 1) ∧
    (c1.g ≤ c2.g → p1.g ≤ p2.g + 1) ∧ (c2.g ≤ c1.g → p2.g ≤ p1.g + 1) ∧
    (c1.b ≤ c2.b → p1.b ≤ p2.b + 1) ∧ (c2.b ≤ c1.b → p2.b ≤ p1.b + 1) := by
  obtain ⟨h1r, h1g, h1b⟩ := hv1
  obtain ⟨h2r, h2g, h2b⟩ := hv2
  have e1 := create_gradient_pixel width height c1 c2 x y1 hx (by omega)
  have e2 := create_gradient_pixel width height c1 c2 x y2 hx h2
  rw [hp1] at e1
  rw [hp2] at e2
  have hq1 : p1 = blendColor c1 c2 (255 * y1 / height) := Option.some.inj e1
  have hq2 : p2 = blendColor c1 c2 (255 * y2 / height) := Option.some.inj e2
  subst hq1
  subst hq2
  have hm12 : 255 * y1 / height ≤ 255 * y2 / height :=
    Nat.div_le_div_right (Nat.mul_le_mul_left 255 h12)
  have hm2 : 255 * y2 / height ≤ 255 := by
    have hstep : 255 * y2 / height ≤ 255 * height / height :=
      Nat.div_le_div_right (Nat.mul_le_mul_left 255 (le_of_lt h2))
    rw [Nat.mul_div_cancel _ (by omega : 0 < height)] at hstep
    exact hstep
  exact ⟨fun hab => blendChannel_mono_of_le _ _ _ _ h1r h2r hab hm12 hm2,
    fun hab => blendChannel_anti_of_ge _ _ _ _ h1r h2r hab hm12 hm2,
    fun hab => blendChannel_mono_of_le _ _ _ _ h1g h2g hab hm12 hm2,
    fun hab => blendChannel_anti_of_ge _ _ _ _ h1g h2g hab hm12 hm2,
    fun hab => blendChannel_mono_of_le _ _ _ _ h1b h2b hab hm12 hm2,
    fun hab => blendChannel_anti_of_ge _ _ _ _ h1b h2b hab hm12 hm2⟩

/-- Witness for C4 at width 1, height 4, rows 1 and 3, black to white. -/
theorem C4_monotone_within_one_witness :
    Color.valid ⟨0, 0, 0⟩ ∧ Color.valid ⟨255, 255, 255⟩ ∧ 0 < 1 ∧ 1 ≤ 3 ∧ 3 < 4 ∧
      (create_gradient 1 4 ⟨0, 0, 0⟩ ⟨255, 255, 255⟩).bind
          (fun img => img[1 * 1 + 0]?) = some ⟨63, 63, 63⟩ ∧
      (create_gradient 1 4 ⟨0, 0, 0⟩ ⟨255, 255, 255⟩).bind
          (fun img => img[3 * 1 + 0]?) = some ⟨191, 191, 191⟩ ∧
      (((0 : Nat) ≤ 255 → (63 : Nat) ≤ 191 + 1) ∧
        ((255 : Nat) ≤ 0 → (191 : Nat) ≤ 63 + 1) ∧
        ((0 : Nat) ≤ 255 → (63 : Nat) ≤ 191 + 1) ∧
        ((255 : Nat) ≤ 0 → (191 : Nat) ≤ 63 + 1) ∧
        ((0 : Nat) ≤ 255 → (63 : Nat) ≤ 191 + 1) ∧
        ((255 : Nat) ≤ 0 → (191 : Nat) ≤ 63 + 1)) :=
  ⟨by decide, by decide, by decide, by decide, by decide, by decide, by decide,
    C4_monotone_within_one 1 4 ⟨0, 0, 0⟩ ⟨255, 255, 255⟩ 0 1 3 ⟨63, 63, 63⟩
      ⟨191, 191, 191⟩ (by decide) (by decide) (by decide) (by decide) (by decide)
      (by decide) (by decide)⟩

/-- C4 counterexample: at height 3 from (1,1,1) to (2,2,2) every channel
satisfies start ≤ end, yet row 1 has value 2 and row 2 value 1: the next
row is strictly below the previous one. -/
theorem C4_counterexample :
    (create_gradient 1 3 ⟨1, 1, 1⟩ ⟨2, 2, 2⟩).bind (fun img => img[1]?) =
      some ⟨2, 2, 2⟩ ∧
    (create_gradient 1 3 ⟨1, 1, 1⟩ ⟨2, 2, 2⟩).bind (fun img => img[2]?) =
      some ⟨1, 1, 1⟩ ∧
    (1 : Nat) ≤ 2 ∧ ¬ ((2 : Nat) ≤ 1) := by
  refine ⟨by decide, by decide, by decide, by decide⟩

/-- C5 (amended): the four viewfinder brackets are exact mutual reflections
across the vertical line x = center and the horizontal line y = center,
where center = size / 2 = 512 is the integer center the code reflects
around — half a pixel off the center axes of the 0..1023 pixel grid, so
under the pixel-grid mirror x maps to 1023 − x the painted sets do not
coincide (see the counterexample). -/
theorem C5_brackets_reflect (x y : Int) :
    (topLeftBracket x y ↔ topRightBracket (2 * center - x) y) ∧
    (topLeftBracket x y ↔ bottomLeftBracket x (2 * center - y)) ∧
    (topLeftBracket x y ↔ bottomRightBracket (2 * center - x) (2 * center - y)) := by
  have hc : center = 512 := by norm_num [center, size]
  have hr : circle_radius = 341 := by norm_num [circle_radius, size]
  simp only [topLeftBracket, topRightBracket, bottomLeftBracket, bottomRightBracket,
    hLineSet, vLineSet, halfWidth, corner_width, corner_size, corner_offset, hr, hc]
  omega

/-- C5 counterexample: pixel (151, 98) is painted by the top-left bracket,
but its reflections across the center axes of the 1024-pixel grid
(x to 1023 − x, y to 1023 − y) are painted by none of the other three
brackets. -/
theorem C5_counterexample :
    topLeftBracket 151 98 ∧ ¬ topRightBracket (1023 - 151) 98 ∧
    ¬ bottomLeftBracket 151 (1023 - 98) ∧
    ¬ bottomRightBracket (1023 - 151) (1023 - 98) := by
  refine ⟨by decide, by decide, by decide, by decide⟩

/-- C6: the outer lens fill passes the RGBA ink (255, 255, 255, 230) to an
RGB-mode canvas; the alpha byte is dropped by ink resolution, so every
pixel strictly inside the disc is exactly (255, 255, 255) after the call —
identical to painting with the opaque ink, with no blending against the
gradient underneath. -/
theorem C6_alpha_ignored (img : PyImage) (x y : Nat)
    (hx : x < img.width) (hlen : y * img.width + x < img.data.length)
    (hin : dist2 center center (x : Int) (y : Int) ≤ sq (circle_radius - 1)) :
    (drawOuterCircle img).data[y * img.width + x]? = some ⟨255, 255, 255⟩ ∧
    inkToColor (Ink.rgba 255 255 255 230) = inkToColor (Ink.rgb 255 255 255) := by
  refine ⟨?_, rfl⟩
  have hw : 0 < img.width := by omega
  have himod : (y * img.width + x) % img.width = x := by
    rw [Nat.mul_comm y, Nat.mul_add_mod, Nat.mod_eq_of_lt hx]
  have hidiv : (y * img.width + x) / img.width = y := by
    rw [Nat.mul_comm y, Nat.mul_add_div hw, Nat.div_eq_of_lt hx, Nat.add_zero]
  have hdisc : inDisc center center circle_radius x y = true := by
    simp only [inDisc, decide_eq_true_eq]
    have hsq : sq (circle_radius - 1) ≤ sq circle_radius := by
      norm_num [sq, circle_radius, size]
    omega
  have hband :
      onCircleBand center center (circle_radius - 1) circle_radius x y = false := by
    simp only [onCircleBand, Bool.and_eq_false_iff, decide_eq_false_iff_not, not_lt]
    intro hcontra
    omega
  show (paintData img.width _ _ 0 (paintData img.width _ _ 0 img.data))[_]? = _
  rw [getElem?_paintData, getElem?_paintData, List.getElem?_eq_getElem hlen]
  simp only [Nat.zero_add, himod, hidiv, Option.map_some', hdisc, hband]
  simp [inkToColor]

/-- Witness for C6: the canvas center pixel of a black 1024 by 1024 image. -/
theorem C6_alpha_ignored_witness :
    512 < (PyImage.mk "RGB" 1024 1024 (List.replicate (1024 * 1024) ⟨0, 0, 0⟩)).width ∧
    512 * (PyImage.mk "RGB" 1024 1024
        (List.replicate (1024 * 1024) ⟨0, 0, 0⟩)).width + 512 <
      (PyImage.mk "RGB" 1024 1024
        (List.replicate (1024 * 1024) ⟨0, 0, 0⟩)).data.length ∧
    dist2 center center ((512 : Nat) : Int) ((512 : Nat) : Int) ≤
      sq (circle_radius - 1) ∧
    (drawOuterCircle (PyImage.mk "RGB" 1024 1024
        (List.replicate (1024 * 1024) ⟨0, 0, 0⟩))).data[
          512 * (PyImage.mk "RGB" 1024 1024
            (List.replicate (1024 * 1024) ⟨0, 0, 0⟩)).width + 512]? =
      some ⟨255, 255, 255⟩ ∧
    inkToColor (Ink.rgba 255 255 255 230) = inkToColor (Ink.rgb 255 255 255) := by
  have h1 : 512 < (PyImage.mk "RGB" 1024 1024
      (List.replicate (1024 * 1024) (⟨0, 0, 0⟩ : Color))).width := by norm_num
  have h2 : 512 * (PyImage.mk "RGB" 1024 1024
      (List.replicate (1024 * 1024) (⟨0, 0, 0⟩ : Color))).width + 512 <
      (PyImage.mk "RGB" 1024 1024
        (List.replicate (1024 * 1024) (⟨0, 0, 0⟩ : Color))).data.length := by
    show 512 * 1024 + 512 < (List.replicate (1024 * 1024) (⟨0, 0, 0⟩ : Color)).length
    rw [List.length_replicate]
    norm_num
  have h3 : dist2 center center ((512 : Nat) : Int) ((512 : Nat) : Int) ≤
      sq (circle_radius - 1) := by decide
  exact ⟨h1, h2, h3,
    (C6_alpha_ignored _ 512 512 h1 h2 h3).1, (C6_alpha_ignored _ 512 512 h1 h2 h3).2⟩

/-- C7: the rendering routine reads none of the ambient state a process
could observe (time, randomness), so two executions from any two
environments produce identical pixel data. -/
theorem C7_deterministic (e1 e2 : Env) : create_app_icon e1 = create_app_icon e2 := rfl

/-- C8: any exception from the `Exception` hierarchy other than ImportError
raised inside `create_app_icon` is caught by the `except Exception`
handler, which prints the exception text and a traceback, and the run ends
normally; indeed every such exception leads to a normal, message-only
exit. -/
theorem C8_generic_exception_caught (msg : String) :
    runScript ⟨true, some (PyExc.otherError msg)⟩ =
      Outcome.normalExit (genericErrorLines msg) ∧
    ∀ e : PyExc, ∃ lines, runScript ⟨true, some e⟩ = Outcome.normalExit lines := by
  refine ⟨rfl, ?_⟩
  intro e
  cases e with
  | importError m => exact ⟨installLines, rfl⟩
  | otherError m => exact ⟨genericErrorLines m, rfl⟩

/-- C9 (amended): `create_gradient` never hits the division by zero: for
height = 0 the loop over `range(height)` is empty, so the division
`y / height` is never executed and an empty canvas is returned; the
function succeeds for every height. -/
theorem C9_no_division_by_zero (width height : Nat) (c1 c2 : Color) :
    (create_gradient width height c1 c2).isSome = true := by
  rw [create_gradient_eq]
  rfl

/-- C9 counterexample: called with height 0 the function returns an empty
image rather than raising ZeroDivisionError. -/
theorem C9_counterexample :
    create_gradient 1 0 ⟨0, 0, 0⟩ ⟨255, 255, 255⟩ = some [] ∧
    create_gradient 1 0 ⟨0, 0, 0⟩ ⟨255, 255, 255⟩ ≠ none := by
  refine ⟨by decide, by decide⟩

/-- C10: the canvas dimensions and mode are preserved by every drawing
operation: the rendered icon is a 1024 by 1024 RGB image with exactly
1024 * 1024 pixels, and each of the three drawing stages keeps the mode,
the dimensions and the pixel count of its input unchanged. -/
theorem C10_canvas_invariant (env : Env) (img : PyImage) :
    (create_app_icon env).map PyImage.mode = some "RGB" ∧
    (create_app_icon env).map PyImage.width = some 1024 ∧
    (create_app_icon env).map PyImage.height = some 1024 ∧
    (create_app_icon env).map (fun i => i.data.length) = some (1024 * 1024) ∧
    ((drawOuterCircle img).mode = img.mode ∧ (drawOuterCircle img).width = img.width ∧
      (drawOuterCircle img).height = img.height ∧
      (drawOuterCircle img).data.length = img.data.length) ∧
    ((drawInnerCircle img).mode = img.mode ∧ (drawInnerCircle img).width = img.width ∧
      (drawInnerCircle img).height = img.height ∧
      (drawInnerCircle img).data.length = img.data.length) ∧
    ((drawCorners img).mode = img.mode ∧ (drawCorners img).width = img.width ∧
      (drawCorners img).height = img.height ∧
      (drawCorners img).data.length = img.data.length) := by
  refine ⟨?_, ?_, ?_, ?_, ?_, ?_, ?_⟩
  · rw [create_app_icon, create_gradient_eq]
    rfl
  · rw [create_app_icon, create_gradient_eq]
    rfl
  · rw [create_app_icon, create_gradient_eq]
    rfl
  · rw [create_app_icon, create_gradient_eq]
    simp only [Option.map_some', Option.some.injEq, drawCorners, drawInnerCircle,
      drawOuterCircle, paintIf, length_paintData]
    unfold gradientPixels
    rw [length_flatMap_replicate, List.length_range]
    norm_num [size]
  · refine ⟨rfl, rfl, rfl, ?_⟩
    simp only [drawOuterCircle, paintIf, length_paintData]
  · refine ⟨rfl, rfl, rfl, ?_⟩
    simp only [drawInnerCircle, paintIf, length_paintData]
  · refine ⟨rfl, rfl, rfl, ?_⟩
    simp only [drawCorners, paintIf, length_paintData]

end AppIcon
